import Mathlib

/-!
# Verification of the Big Sentinel Classifier pipeline

Shallow embedding of `src/Big_Sentinel_Classifier.py` (the Sentinel-2
ice-surface classification pipeline) and proofs about its quality-control
gates, masking, albedo computation, summary aggregation and per-date
driver loop.

All machine reals are modelled as `ℚ` (the script only compares, counts
and takes fixed linear combinations, so exact rationals are a faithful
model up to floating-point rounding).  Raster grids are modelled
per-pixel or as flat lists, matching the `np.ravel` style used by the
source.  File-system state is modelled as lists of file names.
-/

namespace BSC

/-! ## String helpers (glob / substring semantics used by the script)

The script selects files via `glob` patterns and Python `in` substring
tests.  We model a pattern `*P*Q` (with `Q` a literal suffix) by list
operations on the underlying characters, which the kernel can evaluate.
-/

/-- `subOccurs pat s` : the character list `pat` occurs contiguously in `s`
(Python `pat in s`). -/
def subOccurs (pat : List Char) : List Char → Bool
  | [] => pat.isEmpty
  | c :: rest => pat.isPrefixOf (c :: rest) || subOccurs pat rest

/-- Python substring test `pat in s` on strings. -/
def strContainsSub (s pat : String) : Bool :=
  subOccurs pat.data s.data

/-- `s` ends with the literal suffix `p` (glob pattern `*p`). -/
def strEndsIn (s p : String) : Bool :=
  p.data.isSuffixOf s.data

/-- `s` starts with the literal `p` (glob pattern `p*`). -/
def strLeadsWith (s p : String) : Bool :=
  p.data.isPrefixOf s.data

/-- The glob `*_B*_20m.jp2` used to count downloaded band files: the name
ends in `_20m.jp2` and contains `_B` before that suffix. -/
def isBandFile (f : String) : Bool :=
  strEndsIn f "_20m.jp2" && subOccurs "_B".data (f.data.take (f.data.length - 8))

/-- The glob `*CLD_20m.jp2` used to find the cloud-probability layer. -/
def isCloudFile (f : String) : Bool :=
  strEndsIn f "CLD_20m.jp2"

/-! ## Acquisition Gate (`download_imgs_by_date`) -/

/-- Blob-list filtering in `download_imgs_by_date`: keep names containing
`_20m.jp2`, then keep names containing `L2A_` + date. -/
def filtered_bloblist (blobs : List String) (date : String) : List String :=
  (blobs.filter (fun b => strContainsSub b "_20m.jp2")).filter
    (fun b => strContainsSub b ("L2A_" ++ date))

/-- The post-download completeness check of `download_imgs_by_date`:
the flag is raised iff fewer than 9 band files matched `*_B*_20m.jp2`
or no file matched `*CLD_20m.jp2` in the working directory. -/
def download_flag_fn (wdir : List String) : Bool :=
  decide ((wdir.filter isBandFile).length < 9) ||
    decide ((wdir.filter isCloudFile).length = 0)

/-- `download_imgs_by_date` returns the filtered blob list together with
the download flag; it raises no exception on incompleteness. -/
def download_imgs_by_date (blobs : List String) (date : String)
    (wdir : List String) : List String × Bool :=
  (filtered_bloblist blobs date, download_flag_fn wdir)

/-! ## Mask Builder (`format_mask`), cloud thresholding -/

/-- The two chained `xarray.where` calls of `format_mask`:
`Cloudmask.where(values >= T, 0)` keeps `v` where `v ≥ T`, else writes 0;
then `.where(values < T, 1)` keeps the new value where it is `< T`,
else writes 1. -/
def format_cloudmask (T v : ℚ) : ℚ :=
  let v1 := if T ≤ v then v else 0
  if v1 < T then v1 else 1

/-! ## Quality Gate (`img_quality_control`) -/

/-- Count of entries of `l` equal to `v` (`len(arr[arr==v])`). -/
def countEq (l : List ℚ) (v : ℚ) : ℕ :=
  (l.filter (fun x => decide (x = v))).length

/-- `img_quality_control` on ravelled mask/band arrays.  Returns
`(QCflag, CloudCover, IceCover, NaNcover, useable_area)` exactly as the
source computes them: `CloudCover`/`IceCover` count 1-pixels, `NaNcover`
counts 0-pixels of the reference band, the bad-pixel counter collects
indices where the ice mask is 0, the cloud mask is 1 or the reference
band equals 1, and the flag is raised iff
`useable_area < minimum_useable_area`. -/
def img_quality_control (Ice Cloud Ref : List ℚ) (minUseable : ℚ) :
    Bool × ℚ × ℚ × ℚ × ℚ :=
  let CloudCover : ℚ := (countEq Cloud 1 : ℚ) / (Cloud.length : ℚ) * 100
  let IceCover : ℚ := (countEq Ice 1 : ℚ) / (Ice.length : ℚ) * 100
  let NaNcover : ℚ := (countEq Ref 0 : ℚ) / (Ref.length : ℚ) * 100
  let badPixels : ℕ :=
    ((List.range Ice.length).filter (fun i =>
      decide (Ice.getD i 0 = 0) || decide (Cloud.getD i 0 = 1) ||
        decide (Ref.getD i 0 = 1))).length
  let useable_area : ℚ := 100 - ((badPixels : ℚ) / (Cloud.length : ℚ)) * 100
  (decide (useable_area < minUseable), CloudCover, IceCover, NaNcover, useable_area)

/-! ## Albedo Estimator (`ClassifyImages`, albedo line)

`concat` stacks the nine scaled bands in the order
B02, B03, B04, B05, B06, B07, B08 (holding the B8A data), B11, B12, so
positional index `i` of `concat.values` is `concatOrder[i]`.
-/

/-- Band name at each positional index of the `concat` stack. -/
def concatOrder : List String :=
  ["B02", "B03", "B04", "B05", "B06", "B07", "B08", "B11", "B12"]

/-- The albedo line of `ClassifyImages`, verbatim from the source:
`0.356*concat.values[1] + 0.13*concat.values[3] + 0.373*concat.values[6]
 + 0.085*concat.values[7] + 0.072*concat.values[8] - 0.0018`,
as a function of the per-pixel band vector in `concat` order. -/
def albedoCode (b : Fin 9 → ℚ) : ℚ :=
  0.356 * b 1 + 0.13 * b 3 + 0.373 * b 6 + 0.085 * b 7 + 0.072 * b 8 - 0.0018

/-- Modelled from the spec: the published Liang et al. (2002)
narrowband-to-broadband conversion exactly as the claim states it,
`0.356·B02 + 0.130·B04 + 0.373·B8A + 0.085·B11 + 0.072·B12 − 0.0018`,
written down for comparison with the source's `albedoCode`. -/
def albedoSpecFormula (b02 b04 b8a b11 b12 : ℚ) : ℚ :=
  0.356 * b02 + 0.130 * b04 + 0.373 * b8a + 0.085 * b11 + 0.072 * b12 - 0.0018

/-! ## Compositor (`ClassifyImages`, mask2 and output masking) -/

/-- Per-pixel sum of the nine stacked bands (`concat.sum(dim='bands')`). -/
def bandSum (b : Fin 9 → ℚ) : ℚ :=
  ((List.finRange 9).map b).sum

/-- The final validity mask of `ClassifyImages`:
`(Icemask == 1) & (concat.sum(dim='bands') > 0) & (Cloudmask == 0)`. -/
def mask2 (ice cloud : ℚ) (b : Fin 9 → ℚ) : Bool :=
  decide (ice = 1) && decide (0 < bandSum b) && decide (cloud = 0)

/-- `predictedxr.fillna(0)` followed by `.where(mask2 > 0)`: inside the
mask the (NaN-filled) predicted value is kept, outside it the pixel
becomes the fill sentinel (`none`). -/
def classifiedOut (pred : Option ℚ) (m : Bool) : Option ℚ :=
  if m then some (pred.getD 0) else none

/-- `albedoxr.fillna(0)` followed by `.where(mask2 > 0)` applied to the
albedo computed from the band vector. -/
def albedoOut (b : Fin 9 → ℚ) (m : Bool) : Option ℚ :=
  if m then some (albedoCode b) else none

/-! ## Aggregator (`albedo_report`)

`albedoDF.groupby(['pred'])` groups the flattened predicted/albedo pixel
columns by predicted class; pandas drops `NaN` keys (masked pixels,
modelled as `none`) and sorts the remaining distinct keys ascending.
`describe()['albedo']` yields one row per group with the fixed metric
columns `count, mean, std, min, 25%, 50%, 75%, max` (its `count` counts
the non-NaN albedo values of the group).  `xr.DataArray(summaryDF, ...)`
then requires the row count to equal the length 6 of the `classID`
coordinate list, raising a conflicting-sizes error otherwise.
-/

/-- Insert `x` into an ascending list, keeping it sorted. -/
def insertSorted (x : ℚ) : List ℚ → List ℚ
  | [] => [x]
  | y :: ys => if x ≤ y then x :: y :: ys else y :: insertSorted x ys

/-- Sort a list of rationals ascending (pandas sorts group keys). -/
def sortQ (l : List ℚ) : List ℚ :=
  l.foldr insertSorted []

/-- The distinct non-NaN predicted class labels present in the scene,
in ascending order: the group keys of `albedoDF.groupby(['pred'])`. -/
def presentClasses (pred : List (Option ℚ)) : List ℚ :=
  sortQ (pred.filterMap id).dedup

/-- The fixed metric columns produced by `describe()`. -/
def metricNames : List String :=
  ["count", "mean", "std", "min", "25%", "50%", "75%", "max"]

/-- `describe()` `count` for class `c`: pixels predicted as `c` whose
albedo value is not NaN. -/
def classCount (pred albedo : List (Option ℚ)) (c : ℚ) : ℕ :=
  ((pred.zip albedo).filter
    (fun pa => decide (pa.1 = some c) && pa.2.isSome)).length

/-- The summary `DataArray` written by `albedo_report`: one class row per
metric column.  Rows are indexed by the class labels actually present. -/
structure SummaryXr where
  classRows : List (ℚ × ℕ)
  metrics : List String
deriving DecidableEq

/-- `albedo_report`'s construction of `summaryxr`: the grouped describe
table has one row per present class; `xr.DataArray` succeeds only when
that row count matches the 6-element `classID` coordinate
`['SN','WAT','CC','CI','LA','HA']` (else it raises, modelled `none`). -/
def albedo_report_summaryxr (pred albedo : List (Option ℚ)) :
    Option SummaryXr :=
  let rows := (presentClasses pred).map (fun c => (c, classCount pred albedo c))
  if rows.length = 6 then some ⟨rows, metricNames⟩ else none

/-! ## Concatenation step (`concat_all_dates`) -/

/-- A NetCDF file in the output folder: its name and the list of entries
it contributes along the `date` dimension when passed to `xr.concat`
(a per-date summary contributes one entry; a previously concatenated
file contributes one entry per date it already holds). -/
structure NcFile where
  name : String
  dateEntries : List String
deriving DecidableEq

/-- The input glob of `concat_all_dates`: `savepath + 'summary_data_*.nc'`. -/
def summaryGlobMatch (f : String) : Bool :=
  strLeadsWith f "summary_data_" && strEndsIn f ".nc"

/-- Name of the combined per-tile output file. -/
def allDatesName (tile : String) : String :=
  "summary_data_all_dates_" ++ tile ++ ".nc"

/-- Per-date summary file name written by `albedo_report`. -/
def summaryName (tile date : String) : String :=
  "summary_data_" ++ tile ++ "_" ++ date ++ ".nc"

/-- `concat_all_dates`: open every file matching the glob in discovery
order, concatenate their date entries, and write (overwriting) the
combined file into the same folder. -/
def concat_all_dates (tile : String) (store : List NcFile) : List NcFile :=
  let matched := store.filter (fun f => summaryGlobMatch f.name)
  let catd := (matched.map NcFile.dateEntries).flatten
  (store.filter (fun f => f.name ≠ allDatesName tile)) ++ [⟨allDatesName tile, catd⟩]

/-! ## The per-date driver loop

State threaded through the `for date in dates` loop of the script:
the scratch (image) directory contents, the persisted output files in
`savepath`, and the two failure lists.  The body of the per-date `try`
block performs its file writes in a fixed order; an exception at any
point is modelled by the number `failAfter` of writes completed before
the exception (a value `≥ 4` means the block ran to completion).
-/

/-- Where a write of the try block lands. -/
inductive Loc
  | scratch
  | savepath
deriving DecidableEq

/-- Artifact file name written by `ClassifyImages`. -/
def artifactName (tile date : String) : String :=
  tile ++ "_" ++ date ++ "_Classification_and_Albedo_Data.nc"

/-- Figure file name written by `ClassifyImages` when `savefigs`. -/
def figName (tile date : String) : String :=
  tile ++ "_" ++ date ++ "_Classified_Albedo.png"

/-- The writes of the per-date try block, in program order:
`load_model_and_images` writes `S2vals.nc` to the scratch directory,
`ClassifyImages` writes the classification artifact and then the figure
to `savepath`, and `albedo_report` writes the per-date summary. -/
def tryOps (tile date : String) : List (Loc × String) :=
  [(Loc.scratch, "S2vals.nc"),
   (Loc.savepath, artifactName tile date),
   (Loc.savepath, figName tile date),
   (Loc.savepath, summaryName tile date)]

/-- Mutable state of one tile's date loop. -/
structure RunState where
  scratchFiles : List String
  savefiles : List String
  downloadProblemList : List String
  qcList : List String
deriving DecidableEq

/-- Write a file into a directory listing (`mode='w'` overwrite: an
existing name is kept once). -/
def writeFile (dir : List String) (f : String) : List String :=
  if f ∈ dir then dir else dir ++ [f]

/-- Apply one try-block write to the run state. -/
def applyWrite (s : RunState) (w : Loc × String) : RunState :=
  match w.1 with
  | Loc.scratch => { s with scratchFiles := writeFile s.scratchFiles w.2 }
  | Loc.savepath => { s with savefiles := writeFile s.savefiles w.2 }

/-- `clear_img_directory`: delete exactly the files matching `*.jp2`. -/
def clear_img_directory (files : List String) : List String :=
  files.filter (fun f => !(strEndsIn f ".jp2"))

/-- The per-date environment: date string, the files the download step
deposits in the scratch directory, the ravelled ice/cloud masks and
reference band seen by the quality gate, and the try-block failure
point. -/
structure DateEnv where
  date : String
  downloaded : List String
  Ice : List ℚ
  Cloud : List ℚ
  Ref : List ℚ
  failAfter : ℕ
deriving DecidableEq

/-- One iteration of the `for date in dates` loop: download files into
scratch, raise the download flag from the directory contents (recording
the tile/date pair on failure), otherwise run the quality gate
(recording on failure), otherwise run the try block up to its failure
point; finally `clear_img_directory` removes the `*.jp2` files. -/
def processDate (tile : String) (minUseable : ℚ) (e : DateEnv)
    (s : RunState) : RunState :=
  let scratch1 := e.downloaded.foldl writeFile s.scratchFiles
  let s0 := { s with scratchFiles := scratch1 }
  let s1 :=
    if download_flag_fn scratch1 then
      { s0 with downloadProblemList :=
          s0.downloadProblemList ++ [tile ++ "_" ++ e.date] }
    else if (img_quality_control e.Ice e.Cloud e.Ref minUseable).1 then
      { s0 with qcList := s0.qcList ++ [tile ++ "_" ++ e.date] }
    else
      ((tryOps tile e.date).take e.failAfter).foldl applyWrite s0
  { s1 with scratchFiles := clear_img_directory s1.scratchFiles }

/-- The whole date loop for one tile. -/
def runAllDates (tile : String) (minUseable : ℚ) (envs : List DateEnv)
    (s : RunState) : RunState :=
  envs.foldl (fun st e => processDate tile minUseable e st) s

/-! ## `load_model_and_images`: dimensions of the `S2vals` dataset -/

/-- The variables of the `S2vals` `xr.Dataset` with their declared
dimension names and the sizes those dimensions receive from the
underlying `(h, w)`-shaped arrays: the nine bands and `Icemask` declare
`('y','x')`, while `Cloudmask` declares `('x','y')` for an array of the
same `(h, w)` shape. -/
def s2valsVars (h w : ℕ) : List (String × List (String × ℕ)) :=
  [("B02", [("y", h), ("x", w)]), ("B03", [("y", h), ("x", w)]),
   ("B04", [("y", h), ("x", w)]), ("B05", [("y", h), ("x", w)]),
   ("B06", [("y", h), ("x", w)]), ("B07", [("y", h), ("x", w)]),
   ("B08", [("y", h), ("x", w)]), ("B11", [("y", h), ("x", w)]),
   ("B12", [("y", h), ("x", w)]), ("Icemask", [("y", h), ("x", w)]),
   ("Cloudmask", [("x", h), ("y", w)])]

/-- All sizes assigned to dimension `d` across the dataset variables. -/
def dimOccurrences (vars : List (String × List (String × ℕ)))
    (d : String) : List ℕ :=
  ((vars.map Prod.snd).flatten).filterMap
    (fun p => if p.1 = d then some p.2 else none)

/-- All entries of a size list agree. -/
def allEqualNat : List ℕ → Bool
  | [] => true
  | a :: rest => rest.all (fun b => a == b)

/-- First-occurrence distinct entries of a list of names. -/
def distinctNames (l : List String) : List String :=
  l.foldl (fun acc n => if n ∈ acc then acc else acc ++ [n]) []

/-- The distinct dimension names declared by the dataset variables. -/
def dimNames (vars : List (String × List (String × ℕ))) : List String :=
  distinctNames (((vars.map Prod.snd).flatten).map Prod.fst)

/-- `xr.Dataset` construction succeeds iff every dimension name receives
one consistent size from all variables that declare it. -/
def s2valsBuildOk (h w : ℕ) : Bool :=
  (dimNames (s2valsVars h w)).all
    (fun d => allEqualNat (dimOccurrences (s2valsVars h w) d))

/-- Label-based lookup in a 2-D variable: the underlying row-major array
`A` is read at coordinate `{y := a, x := b}` by sending each declared
dimension name to the matching coordinate index. -/
def lookupYX (d1 d2 : String) (A : ℕ → ℕ → ℚ) (a b : ℕ) : ℚ :=
  A (if d1 = "y" then a else b) (if d2 = "y" then a else b)

/-! ## Example data shared by concrete evaluations -/

/-- Working-directory contents after a complete download: the nine band
files of a 20m L2A granule plus the cloud-probability layer. -/
def exampleBandFiles : List String :=
  ["T22WEV_20170605_B02_20m.jp2", "T22WEV_20170605_B03_20m.jp2",
   "T22WEV_20170605_B04_20m.jp2", "T22WEV_20170605_B05_20m.jp2",
   "T22WEV_20170605_B06_20m.jp2", "T22WEV_20170605_B07_20m.jp2",
   "T22WEV_20170605_B8A_20m.jp2", "T22WEV_20170605_B11_20m.jp2",
   "T22WEV_20170605_B12_20m.jp2", "T22WEV_20170605_CLD_20m.jp2"]

/-- A per-date environment that passes the download and quality gates
(a one-pixel scene: ice, cloud-free, reference value 5), with the try
block interrupted after `fa` completed writes. -/
def passingEnv (fa : ℕ) : DateEnv :=
  ⟨"20170605", exampleBandFiles, [1], [0], [5], fa⟩

/-! ## Branch lemmas for the per-date loop body -/

/-- When the download flag is raised, the iteration only records the
tile/date pair and clears the `*.jp2` files. -/
theorem processDate_download_branch (tile : String) (minU : ℚ) (e : DateEnv)
    (s : RunState)
    (h : download_flag_fn (e.downloaded.foldl writeFile s.scratchFiles) = true) :
    processDate tile minU e s =
      { scratchFiles :=
          clear_img_directory (e.downloaded.foldl writeFile s.scratchFiles),
        savefiles := s.savefiles,
        downloadProblemList := s.downloadProblemList ++ [tile ++ "_" ++ e.date],
        qcList := s.qcList } := by
  simp [processDate, h]

/-- When the download flag is clear but the quality flag is raised, the
iteration only records the tile/date pair and clears the `*.jp2` files. -/
theorem processDate_qc_branch (tile : String) (minU : ℚ) (e : DateEnv)
    (s : RunState)
    (h1 : download_flag_fn (e.downloaded.foldl writeFile s.scratchFiles) = false)
    (h2 : (img_quality_control e.Ice e.Cloud e.Ref minU).1 = true) :
    processDate tile minU e s =
      { scratchFiles :=
          clear_img_directory (e.downloaded.foldl writeFile s.scratchFiles),
        savefiles := s.savefiles,
        downloadProblemList := s.downloadProblemList,
        qcList := s.qcList ++ [tile ++ "_" ++ e.date] } := by
  simp [processDate, h1, h2]

/-- When both gates pass, the iteration performs the try-block writes up
to the failure point and then clears the `*.jp2` files. -/
theorem processDate_try_branch (tile : String) (minU : ℚ) (e : DateEnv)
    (s : RunState)
    (h1 : download_flag_fn (e.downloaded.foldl writeFile s.scratchFiles) = false)
    (h2 : (img_quality_control e.Ice e.Cloud e.Ref minU).1 = false) :
    processDate tile minU e s =
      (let s1 := ((tryOps tile e.date).take e.failAfter).foldl applyWrite
        { s with scratchFiles := e.downloaded.foldl writeFile s.scratchFiles }
       { s1 with scratchFiles := clear_img_directory s1.scratchFiles }) := by
  simp [processDate, h1, h2]

/-! ## Theorems -/

/-- C1: the claim says the per-pixel albedo is
`0.356·B02 + 0.130·B04 + 0.373·B8A + 0.085·B11 + 0.072·B12 − 0.0018`.
The code instead indexes positions 1 and 3 of the `concat` stack, which
hold B03 and B05; at the band vector with B02 = B04 = 1 and all other
bands 0, the code produces `-0.0018` while the stated formula gives
`0.4842`, far beyond floating-point tolerance.  This contradicts the
code's own comment (it claims to apply the Liang et al. equation). -/
theorem albedo_formula_code_bug :
    concatOrder.getD 1 "" = "B03" ∧ concatOrder.getD 3 "" = "B05" ∧
    concatOrder.getD 0 "" = "B02" ∧ concatOrder.getD 2 "" = "B04" ∧
    albedoCode (fun i => if i.val = 0 ∨ i.val = 2 then 1 else 0) = -0.0018 ∧
    albedoSpecFormula 1 1 0 0 0 = 0.4842 ∧
    albedoCode (fun i => if i.val = 0 ∨ i.val = 2 then 1 else 0) ≠
      albedoSpecFormula 1 1 0 0 0 := by
  refine ⟨rfl, rfl, rfl, rfl, ?_, by norm_num [albedoSpecFormula], ?_⟩ <;>
    norm_num [albedoCode, albedoSpecFormula, show ((1 : Fin 9) : ℕ) = 1 from rfl,
      show ((3 : Fin 9) : ℕ) = 3 from rfl, show ((6 : Fin 9) : ℕ) = 6 from rfl,
      show ((7 : Fin 9) : ℕ) = 7 from rfl, show ((8 : Fin 9) : ℕ) = 8 from rfl]

/-- C2: the claim says a pixel is bad iff it is non-ice OR cloud OR the
reference band equals the designated no-data sentinel (which the same
function defines as 0 when computing `NaNcover`).  On a one-pixel scene
that is ice, cloud-free, with the reference band at the sentinel 0, the
code reports `NaNcover = 100` yet counts zero bad pixels
(`useable_area = 100`, no flag), because its bad-pixel test compares the
reference band against 1 instead of 0; dually, a reference value of 1 is
counted bad although `NaNcover = 0`. -/
theorem quality_gate_nan_sentinel_code_bug :
    img_quality_control [1] [0] [0] 40 = (false, 0, 100, 100, 100) ∧
    img_quality_control [1] [0] [1] 40 = (true, 0, 100, 0, 0) := by
  constructor <;> norm_num [img_quality_control, countEq, List.range_succ]

/-- C8: `format_mask` thresholds the cloud-probability layer so that a
pixel is cloud (1) iff its probability is ≥ `cloudProbThreshold`, and 0
otherwise; probability exactly equal to the threshold yields 1. -/
theorem cloudmask_threshold_iff (T v : ℚ) (hv0 : 0 ≤ v) (hv1 : v ≤ 100)
    (hT0 : 0 ≤ T) (hT1 : T ≤ 100) :
    format_cloudmask T v = if T ≤ v then 1 else 0 := by
  unfold format_cloudmask
  by_cases hTv : T ≤ v
  · simp only [hTv, if_true, if_pos]
    have : ¬ v < T := not_lt.mpr hTv
    simp [this]
  · have hvT : v < T := not_le.mp hTv
    have h0T : 0 < T := lt_of_le_of_lt hv0 hvT
    simp [hTv, h0T]

/-- Witness for C8 at concrete inputs, including the boundary case
`probability = threshold = 50`, which yields cloud = 1. -/
theorem cloudmask_threshold_iff_witness :
    format_cloudmask 50 50 = 1 ∧ format_cloudmask 50 49 = 0 := by
  have h1 := cloudmask_threshold_iff 50 50 (by norm_num) (by norm_num)
    (by norm_num) (by norm_num)
  have h2 := cloudmask_threshold_iff 50 49 (by norm_num) (by norm_num)
    (by norm_num) (by norm_num)
  constructor
  · simpa using h1
  · rw [h2]; norm_num

/-- C5: the classified and albedo grids written to the artifact are
non-sentinel (`some`) exactly at the pixels where the final mask
`Icemask = 1 ∧ 0 < Σ bands ∧ Cloudmask = 0` holds, and equal the fill
sentinel (`none`) elsewhere. -/
theorem final_mask_governs_outputs (ice cloud : ℚ) (b : Fin 9 → ℚ)
    (pred : Option ℚ) :
    ((classifiedOut pred (mask2 ice cloud b)).isSome ↔
      (ice = 1 ∧ 0 < bandSum b ∧ cloud = 0)) ∧
    ((albedoOut b (mask2 ice cloud b)).isSome ↔
      (ice = 1 ∧ 0 < bandSum b ∧ cloud = 0)) ∧
    (mask2 ice cloud b = false →
      classifiedOut pred (mask2 ice cloud b) = none ∧
        albedoOut b (mask2 ice cloud b) = none) := by
  unfold classifiedOut albedoOut mask2
  by_cases h1 : ice = 1 <;> by_cases h2 : 0 < bandSum b <;>
    by_cases h3 : cloud = 0 <;> simp [h1, h2, h3]

/-- Witness for C5 at a concrete pixel outside the mask (non-ice, zero
band sum): both outputs are the sentinel. -/
theorem final_mask_governs_outputs_witness :
    classifiedOut (some 3) (mask2 0 0 (fun _ => (0 : ℚ))) = none ∧
    albedoOut (fun _ => (0 : ℚ)) (mask2 0 0 (fun _ => (0 : ℚ))) = none := by
  have hm : mask2 0 0 (fun _ => (0 : ℚ)) = false := by
    norm_num [mask2]
  exact (final_mask_governs_outputs 0 0 (fun _ => (0 : ℚ)) (some 3)).2.2 hm

/-- C3 counterexample: on a scene whose only predicted class is 4
(Clean Ice), the grouped describe table has one row, the 6-element
`classID` coordinate does not match, and `xr.DataArray` raises instead
of producing default rows for the five absent classes — so no
6-row SummaryRecord is persisted for this scene. -/
theorem summary_missing_class_raises :
    albedo_report_summaryxr [some 4, some 4] [some 1, some 1] = none ∧
    presentClasses [some 4, some 4] = [4] := by
  constructor <;> decide

/-- C3 (amended): the summary construction of `albedo_report` succeeds
iff exactly 6 distinct class labels are present among the unmasked
pixels; in that case (and only then) the persisted record has 6 class
rows and the 8 describe metrics.  Absent classes are never filled with
default rows. -/
theorem summary_rows_iff_all_classes_present (pred albedo : List (Option ℚ)) :
    ((albedo_report_summaryxr pred albedo).isSome ↔
      (presentClasses pred).length = 6) ∧
    ((albedo_report_summaryxr pred albedo).all
      (fun r => decide (r.classRows.length = 6) &&
        decide (r.metrics.length = 8)) = true) := by
  unfold albedo_report_summaryxr
  by_cases h : (presentClasses pred).length = 6
  · simp [h, metricNames]
  · simp [h]

/-- C4: re-running `concat_all_dates` after one more date's summary has
been persisted does not add exactly one date entry: the input glob
`summary_data_*.nc` also matches the previously written combined file
`summary_data_all_dates_<tile>.nc`, which is re-ingested.  Concretely,
a first run over one date yields a combined file with 1 entry; after a
second date's summary appears, the re-run yields 3 entries
(the first date twice, the second once) instead of the claimed 2.
The combined file is overwritten in place. -/
theorem concat_rerun_code_bug :
    concat_all_dates "22wev" [⟨summaryName "22wev" "20170605", ["20170605"]⟩] =
      [⟨summaryName "22wev" "20170605", ["20170605"]⟩,
       ⟨allDatesName "22wev", ["20170605"]⟩] ∧
    concat_all_dates "22wev"
        [⟨summaryName "22wev" "20170605", ["20170605"]⟩,
         ⟨allDatesName "22wev", ["20170605"]⟩,
         ⟨summaryName "22wev" "20170610", ["20170610"]⟩] =
      [⟨summaryName "22wev" "20170605", ["20170605"]⟩,
       ⟨summaryName "22wev" "20170610", ["20170610"]⟩,
       ⟨allDatesName "22wev", ["20170605", "20170605", "20170610"]⟩] ∧
    summaryGlobMatch (allDatesName "22wev") = true := by
  refine ⟨?_, ?_, ?_⟩ <;> decide

/-- C10: in the `S2vals` dataset written by `load_model_and_images`, the
nine band layers and `Icemask` are declared with dimensions
`('y','x')` while `Cloudmask` is declared with `('x','y')`; the dataset
dimension sizes are consistent iff the scene grid is square, and under
label-based lookup the `Cloudmask` layer reads as the transpose of its
underlying array while a band layer reads untransposed. -/
theorem s2vals_cloudmask_transposed :
    (∀ h w : ℕ, s2valsBuildOk h w = true ↔ h = w) ∧
    (∀ h w : ℕ, (s2valsVars h w).map (fun v => (v.1, v.2.map Prod.fst)) =
      [("B02", ["y", "x"]), ("B03", ["y", "x"]), ("B04", ["y", "x"]),
       ("B05", ["y", "x"]), ("B06", ["y", "x"]), ("B07", ["y", "x"]),
       ("B08", ["y", "x"]), ("B11", ["y", "x"]), ("B12", ["y", "x"]),
       ("Icemask", ["y", "x"]), ("Cloudmask", ["x", "y"])]) ∧
    (∀ (A : ℕ → ℕ → ℚ) (a b : ℕ),
      lookupYX "x" "y" A a b = A b a ∧ lookupYX "y" "x" A a b = A a b) := by
  refine ⟨?_, fun h w => rfl, fun A a b => ⟨rfl, rfl⟩⟩
  intro h w
  have hy : dimOccurrences (s2valsVars h w) "y" =
      [h, h, h, h, h, h, h, h, h, h, w] := rfl
  have hx : dimOccurrences (s2valsVars h w) "x" =
      [w, w, w, w, w, w, w, w, w, w, h] := rfl
  have hlist : (((s2valsVars h w).map Prod.snd).flatten).map Prod.fst =
      ["y", "x", "y", "x", "y", "x", "y", "x", "y", "x", "y", "x", "y", "x",
       "y", "x", "y", "x", "y", "x", "x", "y"] := rfl
  have hn : dimNames (s2valsVars h w) = ["y", "x"] := by
    unfold dimNames
    rw [hlist]
    decide
  rw [s2valsBuildOk, hn]
  simp [hy, hx, allEqualNat]
  omega

/-- C6: the Acquisition Gate raises `download_flag` iff fewer than 9
band files or no cloud-layer file are present after download; in either
case `download_imgs_by_date` still returns the filtered blob list (it is
a total function — no exception); when the flag is raised the
`tile_date` pair is appended to the download-failure list, nothing is
persisted, the quality list is untouched, and the loop proceeds to the
next date. -/
theorem download_gate_flag_iff (blobs : List String) (tile : String)
    (minU : ℚ) (e : DateEnv) (s : RunState) (rest : List DateEnv)
    (wdir : List String) :
    ((download_imgs_by_date blobs e.date wdir).2 = true ↔
      ((wdir.filter isBandFile).length < 9 ∨
        (wdir.filter isCloudFile).length = 0)) ∧
    ((download_imgs_by_date blobs e.date wdir).1 =
      filtered_bloblist blobs e.date) ∧
    (download_flag_fn (e.downloaded.foldl writeFile s.scratchFiles) = true →
      (processDate tile minU e s).downloadProblemList =
          s.downloadProblemList ++ [tile ++ "_" ++ e.date] ∧
        (processDate tile minU e s).savefiles = s.savefiles ∧
        (processDate tile minU e s).qcList = s.qcList) ∧
    runAllDates tile minU (e :: rest) s =
      runAllDates tile minU rest (processDate tile minU e s) := by
  refine ⟨?_, rfl, ?_, rfl⟩
  · simp [download_imgs_by_date, download_flag_fn]
  · intro h
    rw [processDate_download_branch tile minU e s h]
    exact ⟨rfl, rfl, rfl⟩

/-- Witness for C6: with an empty working directory the flag is raised,
the pair is recorded, and nothing is persisted. -/
theorem download_gate_flag_iff_witness :
    (processDate "22wev" 40 ⟨"20170605", [], [], [], [], 0⟩
        ⟨[], [], [], []⟩).downloadProblemList = ["22wev_20170605"] ∧
    (processDate "22wev" 40 ⟨"20170605", [], [], [], [], 0⟩
        ⟨[], [], [], []⟩).savefiles = [] ∧
    (processDate "22wev" 40 ⟨"20170605", [], [], [], [], 0⟩
        ⟨[], [], [], []⟩).qcList = [] := by
  have h := (download_gate_flag_iff [] "22wev" 40 ⟨"20170605", [], [], [], [], 0⟩
    ⟨[], [], [], []⟩ [] []).2.2.1 (by decide)
  exact ⟨h.1.trans (by decide), h.2.1, h.2.2⟩

/-- C7 counterexample: on a scene that passes both gates, an exception
raised inside `albedo_report` (step 4.7, after 3 completed writes of the
try block) still leaves the classification artifact — and the figure —
persisted in the output folder, because `ClassifyImages` writes them
before `albedo_report` runs; only the summary file is absent.  The claim
that an exception anywhere in steps 4.4–4.7 leaves no artifact is
therefore false. -/
theorem artifact_persists_on_report_failure :
    (processDate "22wev" 40 (passingEnv 3) ⟨[], [], [], []⟩).savefiles =
      [artifactName "22wev" "20170605", figName "22wev" "20170605"] ∧
    summaryName "22wev" "20170605" ∉
      (processDate "22wev" 40 (passingEnv 3) ⟨[], [], [], []⟩).savefiles := by
  have h1 : download_flag_fn ((passingEnv 3).downloaded.foldl writeFile
      (⟨[], [], [], []⟩ : RunState).scratchFiles) = false := by decide
  have h2 : (img_quality_control (passingEnv 3).Ice (passingEnv 3).Cloud
      (passingEnv 3).Ref 40).1 = false := by
    show (img_quality_control [1] [0] [5] 40).1 = false
    norm_num [img_quality_control, countEq, List.range_succ]
  rw [processDate_try_branch "22wev" 40 (passingEnv 3) ⟨[], [], [], []⟩ h1 h2]
  constructor <;> decide

/-- C7 (amended): an exception raised before the artifact write — i.e.
during feature loading, classification or albedo computation, modelled
as at most the scratch `S2vals.nc` write completing — leaves no
classification artifact persisted for that tile/date, the exception is
absorbed by the per-date fault boundary, and the loop continues with the
remaining dates. -/
theorem no_artifact_before_write_failure (tile : String) (minU : ℚ)
    (e : DateEnv) (s : RunState) (rest : List DateEnv)
    (hfa : e.failAfter ≤ 1)
    (hart : artifactName tile e.date ∉ s.savefiles) :
    artifactName tile e.date ∉ (processDate tile minU e s).savefiles ∧
    runAllDates tile minU (e :: rest) s =
      runAllDates tile minU rest (processDate tile minU e s) := by
  refine ⟨?_, rfl⟩
  by_cases h1 : download_flag_fn (e.downloaded.foldl writeFile s.scratchFiles) = true
  · rw [processDate_download_branch tile minU e s h1]
    exact hart
  · rw [Bool.not_eq_true] at h1
    by_cases h2 : (img_quality_control e.Ice e.Cloud e.Ref minU).1 = true
    · rw [processDate_qc_branch tile minU e s h1 h2]
      exact hart
    · rw [Bool.not_eq_true] at h2
      rw [processDate_try_branch tile minU e s h1 h2]
      rcases Nat.le_one_iff_eq_zero_or_eq_one.mp hfa with h | h <;> rw [h]
      · simpa using hart
      · simpa [tryOps, applyWrite] using hart

/-- Witness for C7's amended theorem: a gate-passing scene whose try
block fails after the scratch write leaves no artifact persisted. -/
theorem no_artifact_before_write_failure_witness :
    artifactName "22wev" "20170605" ∉
      (processDate "22wev" 40 (passingEnv 1) ⟨[], [], [], []⟩).savefiles :=
  (no_artifact_before_write_failure "22wev" 40 (passingEnv 1)
    ⟨[], [], [], []⟩ [] (by decide) (by simp)).1

/-- C9: after a fully successful iteration the scratch directory is not
emptied of all files written for the scene: `clear_img_directory`
removes only the `*.jp2` files, while the `S2vals.nc` intermediate that
`load_model_and_images` wrote to the same directory survives into the
next iteration. -/
theorem scratch_keeps_s2vals_code_bug :
    (processDate "22wev" 40 (passingEnv 4) ⟨[], [], [], []⟩).scratchFiles =
      ["S2vals.nc"] ∧
    (Loc.scratch, "S2vals.nc") ∈ tryOps "22wev" "20170605" ∧
    clear_img_directory ["S2vals.nc"] = ["S2vals.nc"] := by
  have h1 : download_flag_fn ((passingEnv 4).downloaded.foldl writeFile
      (⟨[], [], [], []⟩ : RunState).scratchFiles) = false := by decide
  have h2 : (img_quality_control (passingEnv 4).Ice (passingEnv 4).Cloud
      (passingEnv 4).Ref 40).1 = false := by
    show (img_quality_control [1] [0] [5] 40).1 = false
    norm_num [img_quality_control, countEq, List.range_succ]
  refine ⟨?_, by decide, by decide⟩
  rw [processDate_try_branch "22wev" 40 (passingEnv 4) ⟨[], [], [], []⟩ h1 h2]
  decide

end BSC

